import Mathlib

/-
Shallow embedding of src/ReconnectingWebSocket.js.

Modelling conventions:
- JavaScript values that flow through the module (configuration durations,
  event-listener arguments) are modelled by the inductive type JSVal.
  Finite numbers are Int (all values exercised by the module are integers);
  NaN and the infinities are separate constructors since Number.isFinite
  distinguishes them.  Functions and option objects are compared by
  identity in JS (===), so they are modelled by identity tags (Nat).
- The bound method this.handleWebSocketCloseEvent has a fixed identity for
  the lifetime of one manager; it is modelled as JSVal.fn 0.  User-supplied
  handlers use other tags.
- A WebSocket instance is modelled by WS: its url, readyState, the ordered
  sequence of addEventListener calls still attached, and a ghost flag
  closeDelivered recording that its single close event has been delivered
  (a transport delivers "close" at most once).
- The manager (class ReconnectingWebSocket) is the structure RWS.  The
  JS timer world is modelled explicitly: reconnectInterval is the truthiness
  of this.reconnectInterval (setInterval handle vs null/undefined), and
  pendingBudget is the FIFO queue of setTimeout callbacks registered by
  handleWebSocketCloseEvent that have not fired yet, each tagged with the
  ghost episode number (1st, 2nd, ... close event) that registered it.
  Timers with equal delay fire in registration order, hence FIFO.
- Event-driven execution is the step function over Ev: a transport close
  (delivered once per transport, running the handler only if attached),
  a periodic-interval tick (runs only while the interval is active), and
  the earliest pending budget timeout firing.
-/

inductive JSVal where
  | num (v : Int)
  | nan
  | inf
  | neginf
  | str (s : String)
  | fn (id : Nat)
  | obj (id : Nat)
  | undef
deriving DecidableEq, Repr

inductive ReadyState where
  | CONNECTING
  | OPEN
  | CLOSING
  | CLOSED
deriving DecidableEq, Repr

/-- The underlying transport (a WebSocket instance), as the manager sees it. -/
structure WS where
  url : String
  readyState : ReadyState
  listeners : List (List JSVal)
  closeDelivered : Bool
deriving DecidableEq, Repr

/-- Model of `new WebSocket(url)`: fresh listener list; the readyState the
connection attempt reaches is an environment parameter. -/
def WS.new (url : String) (rs : ReadyState) : WS :=
  { url := url, readyState := rs, listeners := [], closeDelivered := false }

def WS.addEventListener (w : WS) (args : List JSVal) : WS :=
  { w with listeners := w.listeners ++ [args] }

/-- EventTarget.removeEventListener matches by event type and callback
identity (the capture flag is elided; no call site in the module passes
options to the transport-level detach). -/
def domMatch (l args : List JSVal) : Bool :=
  decide (l.getD 0 JSVal.undef = args.getD 0 JSVal.undef) &&
  decide (l.getD 1 JSVal.undef = args.getD 1 JSVal.undef)

def WS.removeEventListener (w : WS) (args : List JSVal) : WS :=
  { w with listeners := w.listeners.filter (fun l => !domMatch l args) }

/-- Model of WebSocket.close(): the transport proceeds to the closed state
(the transient CLOSING phase is elided); its close event is delivered by a
later Ev.closeFired step. -/
def WS.close (w : WS) : WS :=
  { w with readyState := ReadyState.CLOSED }

-- const convertDaysToMS = days => days * 1000 * 60 * 60 * 24;
def convertDaysToMS (days : Int) : Int := days * 1000 * 60 * 60 * 24
-- const convertHoursToMS = hours => hours * 1000 * 60 * 60;
def convertHoursToMS (hours : Int) : Int := hours * 1000 * 60 * 60

def dayInMS : Int := convertDaysToMS 1
def hourInMS : Int := convertHoursToMS 1

/-- Number.isFinite: true exactly for finite numbers (no string coercion). -/
def isFiniteNumber : JSVal → Bool
  | JSVal.num _ => true
  | _ => false

-- const parseTimeToMS = (time) => { ... }  (src lines 7-27)
def parseTimeToMS (time : JSVal) : JSVal :=
  if isFiniteNumber time then time
  else
    match time with
    | JSVal.str "d" => JSVal.num dayInMS
    | JSVal.str "D" => JSVal.num dayInMS
    | JSVal.str "day" => JSVal.num dayInMS
    | JSVal.str "h" => JSVal.num hourInMS
    | JSVal.str "H" => JSVal.num hourInMS
    | JSVal.str "hour" => JSVal.num hourInMS
    | t => t

/-- JS `x > 0` on the stored budget value.  Numbers compare directly;
Infinity > 0; a string is coerced with ToNumber (approximated by integer
parsing; non-numeric strings coerce to NaN); NaN, -Infinity, undefined,
functions and plain objects all yield false. -/
def jsGtZero : JSVal → Bool
  | JSVal.num v => decide (0 < v)
  | JSVal.inf => true
  | JSVal.str s =>
      match s.toInt? with
      | some n => decide (0 < n)
      | none => false
  | _ => false

/-- The `===`-based prefix match used by the registry filter
`eventListener.every((arg, i) => args[i] === arg)`: every element of the
recorded tuple must equal the call argument at the same index, where an
index past the end of `args` reads undefined. -/
def jsMatch : List JSVal → List JSVal → Bool
  | [], _ => true
  | e :: es, [] => decide (e = JSVal.undef) && jsMatch es []
  | e :: es, a :: more => decide (e = a) && jsMatch es more

/-- Identity of the bound method this.handleWebSocketCloseEvent, and the
argument tuple addCloseEventListener registers. -/
def closeArgs : List JSVal := [JSVal.str "close", JSVal.fn 0]

/-- Constructor options object `{ autoReconnectMS = 3000,
stopReconnectingAfter = hourInMS }`; none means the property is omitted. -/
structure Config where
  autoReconnectMS : Option JSVal := none
  stopReconnectingAfter : Option JSVal := none
deriving DecidableEq, Repr

/-- Instance state of class ReconnectingWebSocket.  episodeCount is a ghost
counter of close events handled (disconnect episodes), used only to tag
pending budget timeouts. -/
structure RWS where
  url : String
  autoReconnectMS : JSVal
  stopReconnectingAfterMS : JSVal
  reconnectAttempts : Nat
  eventListeners : List (List JSVal)
  inst : WS
  reconnectInterval : Bool
  pendingBudget : List Nat
  episodeCount : Nat
deriving DecidableEq, Repr

-- addEventListener(...args)  (src lines 141-144)
def RWS.addEventListener (s : RWS) (args : List JSVal) : RWS :=
  { s with
    eventListeners := s.eventListeners ++ [args]
    inst := s.inst.addEventListener args }

-- removeEventListener(...args)  (src lines 151-155)
def RWS.removeEventListener (s : RWS) (args : List JSVal) : RWS :=
  { s with
    eventListeners := s.eventListeners.filter (fun l => !jsMatch l args)
    inst := s.inst.removeEventListener args }

-- addCloseEventListener  (src lines 53-55)
def RWS.addCloseEventListener (s : RWS) : RWS :=
  s.addEventListener closeArgs

-- startReconnecting sets this.reconnectInterval to a live interval handle
-- (src line 109); the interval body is RWS.reconnectTick below, run by
-- Ev.tick while the handle is live.
def RWS.startReconnecting (s : RWS) : RWS :=
  { s with reconnectInterval := true }

-- stopReconnecting  (src lines 129-132)
def RWS.stopReconnecting (s : RWS) : RWS :=
  { s with reconnectInterval := false }

-- resetReconnectAttempts  (src lines 88-90)
def RWS.resetReconnectAttempts (s : RWS) : RWS :=
  { s with reconnectAttempts := 0 }

-- handleWebSocketCloseEvent  (src lines 61-72): start the retry cycle and,
-- when the stored budget compares > 0, register a one-shot budget timeout
-- (it is never cancelled anywhere in the module).  The ghost episode
-- counter is bumped first so the new timeout carries this episode's tag.
def RWS.handleWebSocketCloseEvent (s : RWS) : RWS :=
  let s1 : RWS := { s with episodeCount := s.episodeCount + 1 }
  let s2 : RWS := s1.startReconnecting
  if jsGtZero s2.stopReconnectingAfterMS then
    { s2 with pendingBudget := s2.pendingBudget ++ [s2.episodeCount] }
  else s2

-- body of the setTimeout callback inside handleWebSocketCloseEvent
-- (src lines 65-70)
def RWS.budgetCallback (s : RWS) : RWS :=
  if s.reconnectInterval then s.stopReconnecting.resetReconnectAttempts
  else s

-- initWebSocketInstance  (src lines 77-83)
def RWS.initWebSocketInstance (s : RWS) (fresh : ReadyState) : RWS :=
  if s.reconnectInterval then { s with inst := WS.new s.url fresh }
  else ({ s with inst := WS.new s.url fresh } : RWS).addCloseEventListener

-- attachPreviousEventListeners  (src lines 96-100)
def RWS.attachPreviousEventListeners (s : RWS) : RWS :=
  { s with inst := s.eventListeners.foldl WS.addEventListener s.inst }

-- console.warn with the pre-incremented attempt counter  (src line 110)
def RWS.logAttempt (s : RWS) : RWS :=
  { s with reconnectAttempts := s.reconnectAttempts + 1 }

-- the body of the setInterval callback in startReconnecting
-- (src lines 109-123); fresh is the readyState the replacement WebSocket
-- reaches when the closed/closing branch constructs it.
def RWS.reconnectTick (s : RWS) (fresh : ReadyState) : RWS :=
  match s.inst.readyState with
  | ReadyState.CLOSED =>
      (s.logAttempt.removeEventListener closeArgs).initWebSocketInstance fresh
  | ReadyState.CLOSING =>
      (s.logAttempt.removeEventListener closeArgs).initWebSocketInstance fresh
  | ReadyState.OPEN =>
      s.logAttempt.stopReconnecting.resetReconnectAttempts.attachPreviousEventListeners.addCloseEventListener
  | ReadyState.CONNECTING => s.logAttempt

-- close()  (src lines 157-159): plain pass-through to the instance
def RWS.close (s : RWS) : RWS :=
  { s with inst := s.inst.close }

-- constructor  (src lines 40-48)
def mkRWS (url : String) (cfg : Config) (fresh : ReadyState) : RWS :=
  (({ url := url
      autoReconnectMS := cfg.autoReconnectMS.getD (JSVal.num 3000)
      stopReconnectingAfterMS :=
        parseTimeToMS (cfg.stopReconnectingAfter.getD (JSVal.num hourInMS))
      reconnectAttempts := 0
      eventListeners := []
      inst := WS.new url fresh
      reconnectInterval := false
      pendingBudget := []
      episodeCount := 0 } : RWS)).initWebSocketInstance fresh

/-- Is the manager's close handler (the disconnect observer) attached to
this transport, by the EventTarget matching rule? -/
def hasCloseHandler (w : WS) : Bool :=
  w.listeners.any (fun l => domMatch l closeArgs)

/-- External events driving the machine. -/
inductive Ev where
  | closeFired
  | tick (fresh : ReadyState)
  | budgetFired
deriving DecidableEq, Repr

/-- One event step.  A transport delivers its close event at most once; the
registered handler body runs only if the observer is attached.  Interval
ticks run only while the interval handle is live (clearInterval stops
them).  budgetFired pops the earliest pending budget timeout and runs its
callback. -/
def step (s : RWS) : Ev → RWS
  | Ev.closeFired =>
      if s.inst.closeDelivered then s
      else
        let s1 : RWS :=
          { s with inst :=
              { s.inst with readyState := ReadyState.CLOSED, closeDelivered := true } }
        if hasCloseHandler s.inst then s1.handleWebSocketCloseEvent else s1
  | Ev.tick fresh => if s.reconnectInterval then s.reconnectTick fresh else s
  | Ev.budgetFired =>
      match s.pendingBudget with
      | [] => s
      | _ :: rest => { s.budgetCallback with pendingBudget := rest }

def runEvents (s : RWS) (evs : List Ev) : RWS :=
  evs.foldl step s

/-- Sample registry of three-field subscriptions, with a duplicate entry. -/
def sampleRegistry : List (List JSVal) :=
  [[JSVal.str "message", JSVal.fn 1, JSVal.undef],
   [JSVal.str "error", JSVal.fn 2, JSVal.undef],
   [JSVal.str "message", JSVal.fn 1, JSVal.undef]]

/-- Sample manager state whose recorded subscriptions are sampleRegistry. -/
def sampleState : RWS :=
  { url := "ws"
    autoReconnectMS := JSVal.num 3000
    stopReconnectingAfterMS := JSVal.num 3600000
    reconnectAttempts := 0
    eventListeners := sampleRegistry
    inst :=
      { url := "ws", readyState := ReadyState.OPEN
        listeners := sampleRegistry, closeDelivered := false }
    reconnectInterval := false
    pendingBudget := []
    episodeCount := 0 }

/-- State reached after construction and one delivered disconnect. -/
def c5state : RWS :=
  runEvents (mkRWS "ws" {} ReadyState.CONNECTING) [Ev.closeFired]

/-- State reached after construction, a disconnect, and one tick that
replaced the dead transport with one that came up open. -/
def c1state : RWS :=
  runEvents (mkRWS "ws" {} ReadyState.CONNECTING)
    [Ev.closeFired, Ev.tick ReadyState.OPEN]

/-- State whose transport is open with the disconnect observer attached. -/
def c10state : RWS := mkRWS "ws" {} ReadyState.OPEN

/-- State reached after a full disconnect episode ending in the success
tick; its registry is again the single 2-element close registration. -/
def postSuccessState : RWS :=
  runEvents (mkRWS "ws" {} ReadyState.CONNECTING)
    [Ev.closeFired, Ev.tick ReadyState.OPEN, Ev.tick ReadyState.CONNECTING]

/-- The current transport can never again run the disconnect observer: its
single close event was already delivered, or the observer is not attached. -/
def closeSafe (w : WS) : Prop :=
  w.closeDelivered = true ∨ hasCloseHandler w = false

/-- Invariant of reachable manager states: while the retry interval is
live, the current transport cannot deliver a close event to the observer
(the observer is re-attached only by the success transition, which clears
the interval first). -/
def intervalCloseSafe (s : RWS) : Prop :=
  s.reconnectInterval = true → closeSafe s.inst

/-- A manager whose retry cycle has been stopped by budget expiry: interval
cleared, attempt counter zero, and the current transport unable to re-run
the disconnect observer. -/
def stoppedState (s : RWS) : Prop :=
  s.reconnectInterval = false ∧ s.reconnectAttempts = 0 ∧ closeSafe s.inst

-- Helper lemmas ------------------------------------------------------------

theorem jsMatch_three (a b c k h o : JSVal) :
    jsMatch [a, b, c] [k, h, o] = decide ([a, b, c] = ([k, h, o] : List JSVal)) := by
  by_cases h1 : a = k <;> by_cases h2 : b = h <;> by_cases h3 : c = o <;>
    simp [jsMatch, h1, h2, h3]

theorem removeEventListener_triples (s : RWS) (k h o : JSVal)
    (hlen : ∀ e ∈ s.eventListeners, e.length = 3) :
    (s.removeEventListener [k, h, o]).eventListeners =
      s.eventListeners.filter (fun e => !decide (e = [k, h, o])) := by
  simp only [RWS.removeEventListener]
  apply List.filter_congr
  intro e he
  obtain ⟨a, b, c, rfl⟩ := List.length_eq_three.mp (hlen e he)
  rw [jsMatch_three]

-- Claims -------------------------------------------------------------------

/-- Claim C3 counterexample: the constructed manager's registry is the
single 2-element close registration; calling removeEventListener with the
3-field tuple ['close', fn 0, obj 1] — which is not structurally equal to
that entry (the options fields differ) — nevertheless removes it, because
the source's filter prefix-matches over the recorded entry's own fields. -/
theorem claim_C3_counterexample :
    (mkRWS "ws" {} ReadyState.CONNECTING).eventListeners = [closeArgs] ∧
    closeArgs ≠ [JSVal.str "close", JSVal.fn 0, JSVal.obj 1] ∧
    ((mkRWS "ws" {} ReadyState.CONNECTING).removeEventListener
        [JSVal.str "close", JSVal.fn 0, JSVal.obj 1]).eventListeners = [] := by
  decide

/-- Claim C3 (amended): removeEventListener(kind, handler, options) filters
the recorded sequence by the source's prefix match — a recorded tuple is
removed iff every one of its own fields equals the call argument at the
same index.  For tuples recorded with all three fields this is exactly
structural equality on (kind, handler, options), so among such tuples
exactly the structurally-equal ones are removed and entries differing in
any field remain, in order; but a tuple recorded with only two fields
(such as the manager's own close registration) is removed whenever its
kind and handler match the call, regardless of the call's options. -/
theorem claim_C3 (s : RWS) (k h o : JSVal) :
    ((∀ e ∈ s.eventListeners, e.length = 3) →
      (s.removeEventListener [k, h, o]).eventListeners =
        s.eventListeners.filter (fun e => !decide (e = [k, h, o]))) ∧
    (∀ a b c : JSVal,
      jsMatch [a, b, c] [k, h, o] = decide ([a, b, c] = ([k, h, o] : List JSVal))) ∧
    (∀ a b : JSVal,
      jsMatch [a, b] [k, h, o] = (decide (a = k) && decide (b = h))) ∧
    (s.removeEventListener [k, h, o]).eventListeners =
      s.eventListeners.filter (fun e => !jsMatch e [k, h, o]) :=
  ⟨fun hlen => removeEventListener_triples s k h o hlen,
   fun a b c => jsMatch_three a b c k h o,
   fun a b => by simp [jsMatch],
   rfl⟩

theorem claim_C3_witness :
    (sampleState.removeEventListener
        [JSVal.str "message", JSVal.fn 1, JSVal.undef]).eventListeners =
      [[JSVal.str "error", JSVal.fn 2, JSVal.undef]] := by
  rw [(claim_C3 sampleState (JSVal.str "message") (JSVal.fn 1) JSVal.undef).1
    (by decide)]
  decide

/-- Claim C8 counterexample: after a successful reconnect the registry is
again the 2-element close registration; removeEventListener with the
3-field tuple ['close', fn 0, obj 1], which was never added, is not a
no-op — it empties the registry. -/
theorem claim_C8_counterexample :
    [JSVal.str "close", JSVal.fn 0, JSVal.obj 1] ∉ postSuccessState.eventListeners ∧
    (postSuccessState.removeEventListener
        [JSVal.str "close", JSVal.fn 0, JSVal.obj 1]).eventListeners ≠
      postSuccessState.eventListeners := by
  decide

/-- Claim C8 (amended): removeEventListener is total (no error), and it
leaves the recorded sequence unchanged whenever no recorded entry
prefix-matches the call tuple.  Being never added is not enough: a
never-added 3-field tuple still strips any prefix-matching shorter entry,
such as the manager's own 2-field close registration; for registries whose
entries all carry three fields, no prefix match coincides with the tuple
not being present. -/
theorem claim_C8 (s : RWS) (k h o : JSVal)
    (hnm : ∀ e ∈ s.eventListeners, jsMatch e [k, h, o] = false) :
    (s.removeEventListener [k, h, o]).eventListeners = s.eventListeners := by
  simp only [RWS.removeEventListener]
  rw [List.filter_eq_self]
  intro e he
  simp [hnm e he]

theorem claim_C8_witness :
    (sampleState.removeEventListener
        [JSVal.str "close", JSVal.fn 9, JSVal.undef]).eventListeners =
      sampleState.eventListeners :=
  claim_C8 sampleState (JSVal.str "close") (JSVal.fn 9) JSVal.undef
    (by decide)

/-- Claim C4: parseTimeToMS maps "d"/"D"/"day" to exactly 86400000 ms and
"h"/"H"/"hour" to exactly 3600000 ms, returns any finite numeric value
verbatim, and passes every other value (including non-finite numbers)
through unchanged. -/
theorem claim_C4 :
    (∀ s : String, s = "d" ∨ s = "D" ∨ s = "day" →
        parseTimeToMS (JSVal.str s) = JSVal.num 86400000) ∧
    (∀ s : String, s = "h" ∨ s = "H" ∨ s = "hour" →
        parseTimeToMS (JSVal.str s) = JSVal.num 3600000) ∧
    (∀ v : Int, parseTimeToMS (JSVal.num v) = JSVal.num v) ∧
    (∀ t : JSVal, isFiniteNumber t = false →
      (∀ s : String, t = JSVal.str s →
        s ≠ "d" ∧ s ≠ "D" ∧ s ≠ "day" ∧ s ≠ "h" ∧ s ≠ "H" ∧ s ≠ "hour") →
      parseTimeToMS t = t) := by
  refine ⟨?_, ?_, ?_, ?_⟩
  · rintro s (rfl | rfl | rfl) <;> decide
  · rintro s (rfl | rfl | rfl) <;> decide
  · intro v
    simp [parseTimeToMS, isFiniteNumber]
  · intro t hfin hstr
    cases t with
    | num v => simp [isFiniteNumber] at hfin
    | str s =>
        obtain ⟨h1, h2, h3, h4, h5, h6⟩ := hstr s rfl
        unfold parseTimeToMS
        rw [if_neg (by simp [isFiniteNumber])]
        split <;> simp_all
    | nan => rfl
    | inf => rfl
    | neginf => rfl
    | fn id => rfl
    | obj id => rfl
    | undef => rfl

theorem claim_C4_witness :
    parseTimeToMS (JSVal.str "day") = JSVal.num 86400000 ∧
    parseTimeToMS (JSVal.str "H") = JSVal.num 3600000 ∧
    parseTimeToMS (JSVal.num 42) = JSVal.num 42 ∧
    parseTimeToMS JSVal.nan = JSVal.nan :=
  ⟨claim_C4.1 "day" (Or.inr (Or.inr rfl)),
   claim_C4.2.1 "H" (Or.inr (Or.inl rfl)),
   claim_C4.2.2.1 42,
   claim_C4.2.2.2 JSVal.nan (by decide) (fun s hs => JSVal.noConfusion hs)⟩

/-- Claim C7: construction with an omitted config uses a retry interval of
exactly 3000 ms and a budget of exactly one hour (3600000 ms); and whenever
the stored (parsed) budget value is a number that is 0 or negative, a
disconnect starts the retry cycle but registers no budget timeout. -/
theorem claim_C7 (u : String) (f : ReadyState) (s : RWS) (b : Int)
    (hb : s.stopReconnectingAfterMS = JSVal.num b) (hle : b ≤ 0) :
    (mkRWS u {} f).autoReconnectMS = JSVal.num 3000 ∧
    (mkRWS u {} f).stopReconnectingAfterMS = JSVal.num 3600000 ∧
    s.handleWebSocketCloseEvent.pendingBudget = s.pendingBudget ∧
    s.handleWebSocketCloseEvent.reconnectInterval = true := by
  have hg : jsGtZero s.stopReconnectingAfterMS = false := by
    rw [hb]
    simp only [jsGtZero, decide_eq_false_iff_not]
    omega
  refine ⟨rfl, rfl, ?_, ?_⟩ <;>
    simp [RWS.handleWebSocketCloseEvent, RWS.startReconnecting, hg]

theorem claim_C7_witness :
    (mkRWS "ws" {} ReadyState.CONNECTING).autoReconnectMS = JSVal.num 3000 ∧
    (mkRWS "ws" {} ReadyState.CONNECTING).stopReconnectingAfterMS =
      JSVal.num 3600000 ∧
    (mkRWS "ws" { stopReconnectingAfter := some (JSVal.num (-5)) }
        ReadyState.CONNECTING).handleWebSocketCloseEvent.pendingBudget =
      (mkRWS "ws" { stopReconnectingAfter := some (JSVal.num (-5)) }
        ReadyState.CONNECTING).pendingBudget ∧
    (mkRWS "ws" { stopReconnectingAfter := some (JSVal.num (-5)) }
        ReadyState.CONNECTING).handleWebSocketCloseEvent.reconnectInterval =
      true :=
  claim_C7 "ws" ReadyState.CONNECTING
    (mkRWS "ws" { stopReconnectingAfter := some (JSVal.num (-5)) }
      ReadyState.CONNECTING)
    (-5) (by decide) (by decide)

/-- Claim C9: the constructor stores the retry interval verbatim (it never
passes through parseTimeToMS), while the budget option is parsed; in
particular a symbolic "h" supplied as the retry interval stays the string
"h" (the value setInterval is given), even though parseTimeToMS would have
converted it to 3600000. -/
theorem claim_C9 (u : String) (cfg : Config) (f : ReadyState) :
    (mkRWS u cfg f).autoReconnectMS = cfg.autoReconnectMS.getD (JSVal.num 3000) ∧
    (mkRWS u cfg f).stopReconnectingAfterMS =
      parseTimeToMS (cfg.stopReconnectingAfter.getD (JSVal.num hourInMS)) ∧
    parseTimeToMS (JSVal.str "h") = JSVal.num 3600000 ∧
    (mkRWS u { cfg with autoReconnectMS := some (JSVal.str "h") } f).autoReconnectMS =
      JSVal.str "h" :=
  ⟨rfl, rfl, by decide, rfl⟩

theorem foldl_ws_addEventListener (L : List (List JSVal)) (w : WS) :
    (L.foldl WS.addEventListener w).listeners = w.listeners ++ L := by
  induction L generalizing w with
  | nil => simp
  | cons a t ih =>
      simp only [List.foldl_cons, ih, WS.addEventListener]
      simp

/-- Claim C1: on a periodic-timer tick with the current transport open, the
manager stops the periodic timer, resets the attempt counter to zero,
replays every recorded subscription onto the current transport in insertion
order, and re-registers the disconnect observer as the final listener, so
the transport ends up with the recorded subscriptions attached in order and
the disconnect observer last. -/
theorem claim_C1 (s : RWS) (fresh : ReadyState)
    (hopen : s.inst.readyState = ReadyState.OPEN) :
    (s.reconnectTick fresh).reconnectInterval = false ∧
    (s.reconnectTick fresh).reconnectAttempts = 0 ∧
    (s.reconnectTick fresh).eventListeners = s.eventListeners ++ [closeArgs] ∧
    (s.reconnectTick fresh).inst.listeners =
      s.inst.listeners ++ s.eventListeners ++ [closeArgs] := by
  have harm : s.reconnectTick fresh =
      s.logAttempt.stopReconnecting.resetReconnectAttempts.attachPreviousEventListeners.addCloseEventListener := by
    unfold RWS.reconnectTick
    rw [hopen]
  rw [harm]
  refine ⟨rfl, rfl, rfl, ?_⟩
  simp [RWS.addCloseEventListener, RWS.addEventListener, WS.addEventListener,
    RWS.attachPreviousEventListeners, RWS.resetReconnectAttempts,
    RWS.stopReconnecting, RWS.logAttempt, foldl_ws_addEventListener]

theorem claim_C1_witness :
    (c1state.reconnectTick ReadyState.CONNECTING).reconnectInterval = false ∧
    (c1state.reconnectTick ReadyState.CONNECTING).reconnectAttempts = 0 ∧
    (c1state.reconnectTick ReadyState.CONNECTING).eventListeners =
      c1state.eventListeners ++ [closeArgs] ∧
    (c1state.reconnectTick ReadyState.CONNECTING).inst.listeners =
      c1state.inst.listeners ++ c1state.eventListeners ++ [closeArgs] :=
  claim_C1 c1state ReadyState.CONNECTING (by decide)

theorem hasCloseHandler_after_detach (w : WS) :
    hasCloseHandler (w.removeEventListener closeArgs) = false := by
  simp only [hasCloseHandler, WS.removeEventListener]
  rw [List.any_eq_false]
  intro l hl
  rcases List.mem_filter.mp hl with ⟨hmem, hkeep⟩
  simp only [Bool.not_eq_true'] at hkeep
  simp [hkeep]

/-- Claim C5: on a periodic-timer tick with the current transport closed or
closing, the manager detaches the disconnect observer from the stale
transport, opens a brand-new transport to the same endpoint with no
listeners attached (in particular the disconnect observer is not attached
to it on this tick), and leaves the periodic timer running. -/
theorem claim_C5 (s : RWS) (fresh : ReadyState)
    (hrs : s.inst.readyState = ReadyState.CLOSED ∨
      s.inst.readyState = ReadyState.CLOSING)
    (hint : s.reconnectInterval = true) :
    (s.reconnectTick fresh).reconnectInterval = true ∧
    (s.reconnectTick fresh).inst.url = s.url ∧
    (s.reconnectTick fresh).inst.readyState = fresh ∧
    (s.reconnectTick fresh).inst.listeners = [] ∧
    hasCloseHandler ((s.removeEventListener closeArgs).inst) = false := by
  have harm : s.reconnectTick fresh =
      (s.logAttempt.removeEventListener closeArgs).initWebSocketInstance fresh := by
    unfold RWS.reconnectTick
    rcases hrs with h | h <;> rw [h]
  have hcond : (s.logAttempt.removeEventListener closeArgs).reconnectInterval = true := hint
  rw [harm]
  simp only [RWS.initWebSocketInstance, hcond, if_true]
  exact ⟨trivial, rfl, rfl, rfl, hasCloseHandler_after_detach s.inst⟩

theorem claim_C5_witness :
    (c5state.reconnectTick ReadyState.CONNECTING).reconnectInterval = true ∧
    (c5state.reconnectTick ReadyState.CONNECTING).inst.url = c5state.url ∧
    (c5state.reconnectTick ReadyState.CONNECTING).inst.readyState =
      ReadyState.CONNECTING ∧
    (c5state.reconnectTick ReadyState.CONNECTING).inst.listeners = [] ∧
    hasCloseHandler ((c5state.removeEventListener closeArgs).inst) = false :=
  claim_C5 c5state ReadyState.CONNECTING (by decide) (by decide)

theorem handleWebSocketCloseEvent_interval (s : RWS) :
    s.handleWebSocketCloseEvent.reconnectInterval = true := by
  simp only [RWS.handleWebSocketCloseEvent, RWS.startReconnecting]
  split <;> rfl

theorem handleWebSocketCloseEvent_inst (s : RWS) :
    s.handleWebSocketCloseEvent.inst = s.inst := by
  simp only [RWS.handleWebSocketCloseEvent, RWS.startReconnecting]
  split <;> rfl

/-- Claim C10: close() passes straight through to the current transport,
stopping no timer and detaching nothing, so closing an open transport whose
disconnect observer is still attached leads the delivered close event to
run the observer and start a retry cycle: the manager reconnects even after
an intentional close. -/
theorem claim_C10 (s : RWS)
    (_hopen : s.inst.readyState = ReadyState.OPEN)
    (hnd : s.inst.closeDelivered = false)
    (hh : hasCloseHandler s.inst = true) :
    s.close.reconnectInterval = s.reconnectInterval ∧
    s.close.pendingBudget = s.pendingBudget ∧
    s.close.eventListeners = s.eventListeners ∧
    s.close.inst.listeners = s.inst.listeners ∧
    (step s.close Ev.closeFired).reconnectInterval = true := by
  have h1 : s.close.inst.closeDelivered = false := hnd
  have h2 : hasCloseHandler s.close.inst = true := hh
  refine ⟨rfl, rfl, rfl, rfl, ?_⟩
  simp [step, h1, h2, handleWebSocketCloseEvent_interval]

theorem claim_C10_witness :
    c10state.close.reconnectInterval = c10state.reconnectInterval ∧
    c10state.close.pendingBudget = c10state.pendingBudget ∧
    c10state.close.eventListeners = c10state.eventListeners ∧
    c10state.close.inst.listeners = c10state.inst.listeners ∧
    (step c10state.close Ev.closeFired).reconnectInterval = true :=
  claim_C10 c10state (by decide) (by decide) (by decide)

theorem tick_intervalCloseSafe (s : RWS) (fresh : ReadyState)
    (h : intervalCloseSafe s) (hint : s.reconnectInterval = true) :
    intervalCloseSafe (s.reconnectTick fresh) := by
  unfold RWS.reconnectTick
  cases hrs : s.inst.readyState with
  | CONNECTING =>
      intro hi
      exact h hint
  | OPEN =>
      intro hi
      rw [show (s.logAttempt.stopReconnecting.resetReconnectAttempts.attachPreviousEventListeners.addCloseEventListener).reconnectInterval = false from rfl] at hi
      exact Bool.noConfusion hi
  | CLOSED =>
      have hcond : (s.logAttempt.removeEventListener closeArgs).reconnectInterval = true := hint
      simp only [RWS.initWebSocketInstance, hcond, if_true]
      intro hi
      exact Or.inr rfl
  | CLOSING =>
      have hcond : (s.logAttempt.removeEventListener closeArgs).reconnectInterval = true := hint
      simp only [RWS.initWebSocketInstance, hcond, if_true]
      intro hi
      exact Or.inr rfl

theorem step_intervalCloseSafe (s : RWS) (e : Ev) (h : intervalCloseSafe s) :
    intervalCloseSafe (step s e) := by
  cases e with
  | closeFired =>
      by_cases hd : s.inst.closeDelivered
      · simpa [step, hd] using h
      · by_cases hh : hasCloseHandler s.inst <;>
          simp [step, hd, hh, intervalCloseSafe, closeSafe,
            handleWebSocketCloseEvent_inst]
  | tick fresh =>
      by_cases hi : s.reconnectInterval
      · simpa [step, hi] using tick_intervalCloseSafe s fresh h hi
      · simpa [step, hi] using h
  | budgetFired =>
      cases hpb : s.pendingBudget with
      | nil => simpa [step, hpb] using h
      | cons a rest =>
          intro hi
          have hfalse : (step s Ev.budgetFired).reconnectInterval = false := by
            simp only [step, hpb, RWS.budgetCallback]
            by_cases hri : s.reconnectInterval = true
            · rw [if_pos hri]
              rfl
            · rw [if_neg hri]
              simp only [Bool.not_eq_true] at hri
              exact hri
          rw [hfalse] at hi
          exact Bool.noConfusion hi

theorem mkRWS_intervalCloseSafe (u : String) (cfg : Config) (f : ReadyState) :
    intervalCloseSafe (mkRWS u cfg f) :=
  fun hi => Bool.noConfusion hi

theorem runEvents_intervalCloseSafe (s : RWS) (evs : List Ev)
    (h : intervalCloseSafe s) : intervalCloseSafe (runEvents s evs) := by
  induction evs generalizing s with
  | nil => exact h
  | cons e t ih => exact ih (step s e) (step_intervalCloseSafe s e h)

theorem step_stoppedState (s : RWS) (e : Ev) (h : stoppedState s) :
    stoppedState (step s e) := by
  obtain ⟨h1, h2, h3⟩ := h
  cases e with
  | closeFired =>
      by_cases hd : s.inst.closeDelivered = true
      · simp only [step, hd, if_true]
        exact ⟨h1, h2, Or.inl hd⟩
      · have hh : hasCloseHandler s.inst = false := by
          rcases h3 with hc | hc
          · exact absurd hc hd
          · exact hc
        simp only [step, hd, hh, Bool.false_eq_true, if_false]
        exact ⟨h1, h2, Or.inl rfl⟩
  | tick fresh =>
      simp only [step, h1, Bool.false_eq_true, if_false]
      exact ⟨h1, h2, h3⟩
  | budgetFired =>
      cases hpb : s.pendingBudget with
      | nil =>
          simp only [step, hpb]
          exact ⟨h1, h2, h3⟩
      | cons a rest =>
          simp only [step, hpb, RWS.budgetCallback, h1, Bool.false_eq_true,
            if_false]
          exact ⟨rfl, h2, h3⟩

theorem runEvents_stoppedState (s : RWS) (evs : List Ev)
    (h : stoppedState s) : stoppedState (runEvents s evs) := by
  induction evs generalizing s with
  | nil => exact h
  | cons e t ih => exact ih (step s e) (step_stoppedState s e h)

/-- Claim C6: when a pending budget timeout fires on a reachable state with
the retry cycle still active, the periodic timer is stopped and the attempt
counter reset to zero, and no subsequent events (transport closes, interval
ticks, further timer expiries) restart the cycle or log another attempt:
the interval stays cleared and the counter stays zero. -/
theorem claim_C6 (u : String) (cfg : Config) (f : ReadyState) (evs : List Ev)
    (s : RWS) (hs : s = runEvents (mkRWS u cfg f) evs)
    (hint : s.reconnectInterval = true)
    (hp : s.pendingBudget ≠ []) :
    (step s Ev.budgetFired).reconnectInterval = false ∧
    (step s Ev.budgetFired).reconnectAttempts = 0 ∧
    ∀ more : List Ev,
      (runEvents (step s Ev.budgetFired) more).reconnectInterval = false ∧
      (runEvents (step s Ev.budgetFired) more).reconnectAttempts = 0 := by
  have hI : intervalCloseSafe s := by
    rw [hs]
    exact runEvents_intervalCloseSafe _ evs (mkRWS_intervalCloseSafe u cfg f)
  have hcs : closeSafe s.inst := hI hint
  obtain ⟨a, rest, hpb⟩ : ∃ a rest, s.pendingBudget = a :: rest := by
    cases hpb : s.pendingBudget with
    | nil => exact absurd hpb hp
    | cons a r => exact ⟨a, r, rfl⟩
  have hstop : stoppedState (step s Ev.budgetFired) := by
    simp only [step, hpb, RWS.budgetCallback, hint, if_true]
    exact ⟨rfl, rfl, hcs⟩
  refine ⟨hstop.1, hstop.2.1, fun more => ?_⟩
  have hrun := runEvents_stoppedState _ more hstop
  exact ⟨hrun.1, hrun.2.1⟩

theorem claim_C6_witness :
    (step c5state Ev.budgetFired).reconnectInterval = false ∧
    (step c5state Ev.budgetFired).reconnectAttempts = 0 ∧
    (runEvents (step c5state Ev.budgetFired)
        [Ev.tick ReadyState.OPEN, Ev.closeFired, Ev.budgetFired]).reconnectInterval = false ∧
    (runEvents (step c5state Ev.budgetFired)
        [Ev.tick ReadyState.OPEN, Ev.closeFired, Ev.budgetFired]).reconnectAttempts = 0 := by
  have h := claim_C6 "ws" {} ReadyState.CONNECTING [Ev.closeFired] c5state rfl
    (by decide) (by decide)
  exact ⟨h.1, h.2.1, (h.2.2 _).1, (h.2.2 _).2⟩

/-- Claim C2 counterexample: with the default config, run
close (episode 1), a tick that replaces the dead transport with one that
comes up open, the success tick, then a second close (episode 2).  The
success of episode 1 leaves episode 1's budget timeout pending (the module
never calls clearTimeout), and when that stale timeout fires it finds the
periodic-timer handle of episode 2 live and stops episode 2's retry cycle:
it is not a no-op and it does stop the retry cycle of a later episode. -/
theorem claim_C2_counterexample :
    (runEvents (mkRWS "ws" {} ReadyState.CONNECTING)
      [Ev.closeFired, Ev.tick ReadyState.OPEN,
       Ev.tick ReadyState.CONNECTING]).reconnectInterval = false ∧
    (runEvents (mkRWS "ws" {} ReadyState.CONNECTING)
      [Ev.closeFired, Ev.tick ReadyState.OPEN,
       Ev.tick ReadyState.CONNECTING]).pendingBudget = [1] ∧
    (runEvents (mkRWS "ws" {} ReadyState.CONNECTING)
      [Ev.closeFired, Ev.tick ReadyState.OPEN,
       Ev.tick ReadyState.CONNECTING, Ev.closeFired]).reconnectInterval = true ∧
    (runEvents (mkRWS "ws" {} ReadyState.CONNECTING)
      [Ev.closeFired, Ev.tick ReadyState.OPEN,
       Ev.tick ReadyState.CONNECTING, Ev.closeFired]).episodeCount = 2 ∧
    (runEvents (mkRWS "ws" {} ReadyState.CONNECTING)
      [Ev.closeFired, Ev.tick ReadyState.OPEN,
       Ev.tick ReadyState.CONNECTING, Ev.closeFired]).pendingBudget = [1, 2] ∧
    (runEvents (mkRWS "ws" {} ReadyState.CONNECTING)
      [Ev.closeFired, Ev.tick ReadyState.OPEN, Ev.tick ReadyState.CONNECTING,
       Ev.closeFired, Ev.budgetFired]).reconnectInterval = false ∧
    (runEvents (mkRWS "ws" {} ReadyState.CONNECTING)
      [Ev.closeFired, Ev.tick ReadyState.OPEN, Ev.tick ReadyState.CONNECTING,
       Ev.closeFired, Ev.budgetFired]).pendingBudget = [2] := by
  decide

/-- Claim C2 (amended): a successful reconnect and stopReconnecting clear
only the periodic timer; the pending budget timeout is never cancelled.  A
budget timeout that fires when no retry cycle is active only expires (the
manager state is otherwise untouched); but whenever it fires while a retry
cycle is active (possibly a later episode's), it stops that cycle and
resets the attempt counter. -/
theorem claim_C2_amended (s : RWS) :
    (∀ fresh : ReadyState, s.inst.readyState = ReadyState.OPEN →
      (s.reconnectTick fresh).pendingBudget = s.pendingBudget) ∧
    s.stopReconnecting.pendingBudget = s.pendingBudget ∧
    (s.reconnectInterval = false →
      step s Ev.budgetFired = { s with pendingBudget := s.pendingBudget.tail }) ∧
    (s.reconnectInterval = true → s.pendingBudget ≠ [] →
      (step s Ev.budgetFired).reconnectInterval = false ∧
      (step s Ev.budgetFired).reconnectAttempts = 0) := by
  refine ⟨?_, rfl, ?_, ?_⟩
  · intro fresh hopen
    have harm : s.reconnectTick fresh =
        s.logAttempt.stopReconnecting.resetReconnectAttempts.attachPreviousEventListeners.addCloseEventListener := by
      unfold RWS.reconnectTick
      rw [hopen]
    rw [harm]
    rfl
  · intro hfalse
    cases hpb : s.pendingBudget with
    | nil =>
        simp only [step, hpb, List.tail_nil]
        conv_rhs => rw [← hpb]
    | cons a rest =>
        simp only [step, hpb, RWS.budgetCallback, hfalse, Bool.false_eq_true,
          if_false, List.tail_cons]
  · intro htrue hp
    obtain ⟨a, rest, hpb⟩ : ∃ a rest, s.pendingBudget = a :: rest := by
      cases hpb : s.pendingBudget with
      | nil => exact absurd hpb hp
      | cons a r => exact ⟨a, r, rfl⟩
    simp only [step, hpb, RWS.budgetCallback, htrue, if_true]
    exact ⟨rfl, rfl⟩

theorem claim_C2_amended_witness :
    (sampleState.reconnectTick ReadyState.CONNECTING).pendingBudget =
      sampleState.pendingBudget ∧
    sampleState.stopReconnecting.pendingBudget = sampleState.pendingBudget ∧
    step sampleState Ev.budgetFired =
      { sampleState with pendingBudget := sampleState.pendingBudget.tail } ∧
    (step c5state Ev.budgetFired).reconnectInterval = false ∧
    (step c5state Ev.budgetFired).reconnectAttempts = 0 :=
  ⟨(claim_C2_amended sampleState).1 ReadyState.CONNECTING (by decide),
   (claim_C2_amended sampleState).2.1,
   (claim_C2_amended sampleState).2.2.1 (by decide),
   ((claim_C2_amended c5state).2.2.2 (by decide) (by decide)).1,
   ((claim_C2_amended c5state).2.2.2 (by decide) (by decide)).2⟩
